import Mathlib

/-!
Shallow embedding of the collection orchestrator of the `kube_inventory`
telegraf input plugin (`plugins/inputs/kube_inventory/kube_state.go`).

The embedding models:
- the process-wide collector registry `availableCollectors` (a Go map from
  resource-kind name to collector routine; since each name maps to a fixed
  distinct routine, routines are identified by their registry names, and the
  map is modelled as the list of its keys);
- the plugin configuration struct `KubernetesInventory` (the fields the
  orchestrator reads, plus the cached `client` handle);
- `initClient`, which (when the include list is empty) deletes every excluded
  entry from the shared registry, then optionally reads and trims the
  bearer-token file, then constructs the client;
- `Gather`, which lazily constructs the client, fans out one unit of work per
  selected collector, waits for all of them and returns nil.

External collaborators (the file system read by `ioutil.ReadFile`, the
`newClient` constructor's possible TLS failure, and whether each collector
reports an error to the accumulator) are modelled by an explicit environment
`Env`. Go-level semantics that matter here: a map lookup miss yields the zero
value of the function type (nil), and invoking a nil function value panics;
this is modelled by the `GatherResult.panicked` outcome.
-/

/-- Errors surfaced by client construction: a bearer-token file that cannot be
read (the error carries the offending path, as Go's `*PathError` does), or a
failure inside `newClient` (TLS setup and the like). -/
inductive GoError where
  | fileReadError (path : String)
  | clientError (msg : String)
deriving DecidableEq

/-- The Kubernetes API client handle produced by `newClient`, recorded by the
arguments it was constructed with. -/
structure Client where
  url : String
  ns : String
  bearerTokenString : String
  timeout : Nat
deriving DecidableEq

/-- The configuration/state struct of the plugin (`KubernetesInventory` in the
source): the fields the orchestrator reads, plus the cached client handle. -/
structure KubernetesInventory where
  url : String := ""
  bearerToken : String := ""
  bearerTokenString : String := ""
  ns : String := "default"
  responseTimeout : Nat := 5
  resourceExclude : List String := []
  resourceInclude : List String := []
  client : Option Client := none
deriving DecidableEq

/-- External collaborators of one poll: the file system (path to content, a
missing file reads as `none`), whether `newClient` itself fails, and which
collectors fail internally (reporting their error to the accumulator). -/
structure Env where
  fs : String → Option String
  newClientErr : Option String
  collectorFails : String → Bool

/-- The initial contents of the process-wide registry `availableCollectors`:
the keys of the Go map literal. -/
def availableCollectors : List String :=
  ["daemonsets", "deployments", "nodes", "persistentvolumes",
   "persistentvolumeclaims", "pods", "statefulsets"]

/-- The delete loop of `initClient`: `for i := range ki.ResourceExclude {
delete(availableCollectors, ki.ResourceExclude[i]) }`. -/
def applyExclusions (exclude : List String) (reg : List String) : List String :=
  exclude.foldl (fun r e => r.filter (fun n => n ≠ e)) reg

/-- `strings.TrimSpace`: drop leading and trailing whitespace characters from
a string (written over the character list so that it evaluates by reduction). -/
def trimSpace (s : String) : String :=
  ⟨((s.data.dropWhile Char.isWhitespace).reverse.dropWhile Char.isWhitespace).reverse⟩

/-- `newClient(url, namespace, bearerTokenString, timeout, tlsConfig)`:
external constructor; fails exactly when the environment says so. -/
def newClient (env : Env) (url ns token : String) (timeout : Nat) :
    Except GoError Client :=
  match env.newClientErr with
  | some msg => Except.error (GoError.clientError msg)
  | none => Except.ok { url := url, ns := ns, bearerTokenString := token, timeout := timeout }

/-- Result of `initClient`: the returned `(client, error)` pair, the (possibly
mutated) receiver struct, and the (possibly mutated) shared registry. -/
structure InitResult where
  outcome : Except GoError Client
  ki : KubernetesInventory
  reg : List String

/-- `(ki *KubernetesInventory) initClient()`. In source order: when the
include list is empty, delete every excluded entry from the shared registry;
then, when a bearer-token file path is set, read it (returning the read error
on failure) and store its trimmed content into `ki.BearerTokenString`; finally
call `newClient` with the struct's current fields. -/
def initClient (env : Env) (ki : KubernetesInventory) (reg : List String) :
    InitResult :=
  let reg' := if ki.resourceInclude = [] then applyExclusions ki.resourceExclude reg else reg
  if ki.bearerToken ≠ "" then
    match env.fs ki.bearerToken with
    | none =>
        { outcome := Except.error (GoError.fileReadError ki.bearerToken), ki := ki, reg := reg' }
    | some content =>
        let ki' := { ki with bearerTokenString := trimSpace content }
        { outcome := newClient env ki'.url ki'.ns ki'.bearerTokenString ki'.responseTimeout,
          ki := ki', reg := reg' }
  else
    { outcome := newClient env ki.url ki.ns ki.bearerTokenString ki.responseTimeout,
      ki := ki, reg := reg' }

/-- The unit of work `Gather` launches for one collector name: the routine the
registry lookup produced (`none` is Go's nil function value, obtained on a
lookup miss). Only reached on the include-list path; the registry-iteration
path launches each registered routine directly. -/
def lookupCollector (reg : List String) (n : String) : Option String :=
  if n ∈ reg then some n else none

/-- The concurrent units `Gather` launches: one per registered routine when
the include list is empty, otherwise one per include entry (carrying the
lookup result, nil included). -/
def launchedUnits (ki : KubernetesInventory) (reg : List String) :
    List (Option String) :=
  if ki.resourceInclude = [] then reg.map some
  else ki.resourceInclude.map (lookupCollector reg)

/-- Outcome of one `Gather` call (one poll): the value returned to the caller,
or the fact that a launched unit invoked a nil routine and panicked. -/
inductive GatherResult where
  | err (e : GoError)
  | panicked
  | ok
deriving DecidableEq

/-- One poll, observed: the returned value (or panic), the collector routines
actually invoked, the collector errors reported to the accumulator, whether
this poll attempted client construction, and the post-poll plugin struct and
shared registry. -/
structure GatherOutcome where
  result : GatherResult
  run : List String
  accErrors : List String
  attempted : Bool
  ki : KubernetesInventory
  reg : List String
deriving DecidableEq

/-- The fan-out/join phase of `Gather`, reached once a client handle is in
hand: launch the units, wait for all, return nil — unless a unit held a nil
routine, whose invocation panics. Collectors that fail internally report to
the accumulator and do not affect the returned value. -/
def dispatch (env : Env) (ki : KubernetesInventory) (reg : List String)
    (attempted : Bool) : GatherOutcome :=
  let units := launchedUnits ki reg
  { result := if none ∈ units then GatherResult.panicked else GatherResult.ok,
    run := units.filterMap id,
    accErrors := (units.filterMap id).filter (fun n => env.collectorFails n),
    attempted := attempted, ki := ki, reg := reg }

/-- `(ki *KubernetesInventory) Gather(acc)`: when no client handle is cached,
call `initClient` (the multi-assignment `ki.client, err = ki.initClient()`
leaves `ki.client` nil on failure, and the error is returned before any
collector is launched); otherwise reuse the cached handle. Then fan out over
the (possibly mutated) shared registry. -/
def Gather (env : Env) (ki : KubernetesInventory) (reg : List String) :
    GatherOutcome :=
  match ki.client with
  | some _ => dispatch env ki reg false
  | none =>
    match (initClient env ki reg).outcome with
    | Except.error e =>
        { result := GatherResult.err e, run := [], accErrors := [], attempted := true,
          ki := { (initClient env ki reg).ki with client := none },
          reg := (initClient env ki reg).reg }
    | Except.ok c =>
        dispatch env { (initClient env ki reg).ki with client := some c }
          (initClient env ki reg).reg true

/-- A sequence of polls against the same plugin struct and shared registry:
returns the final struct, the final registry, and how many of the polls
attempted client construction. -/
def pollSeq (envs : List Env) (ki : KubernetesInventory) (reg : List String) :
    KubernetesInventory × List String × Nat :=
  match envs with
  | [] => (ki, reg, 0)
  | e :: es =>
    let out := Gather e ki reg
    let rest := pollSeq es out.ki out.reg
    (rest.1, rest.2.1, (if out.attempted then 1 else 0) + rest.2.2)

/-! ### Basic lemmas about the embedding -/

theorem dispatch_run (env : Env) (ki : KubernetesInventory) (reg : List String) (b : Bool) :
    (dispatch env ki reg b).run = (launchedUnits ki reg).filterMap id := rfl

theorem dispatch_ki (env : Env) (ki : KubernetesInventory) (reg : List String) (b : Bool) :
    (dispatch env ki reg b).ki = ki := rfl

theorem dispatch_reg (env : Env) (ki : KubernetesInventory) (reg : List String) (b : Bool) :
    (dispatch env ki reg b).reg = reg := rfl

theorem dispatch_attempted (env : Env) (ki : KubernetesInventory) (reg : List String) (b : Bool) :
    (dispatch env ki reg b).attempted = b := rfl

theorem dispatch_result (env : Env) (ki : KubernetesInventory) (reg : List String) (b : Bool) :
    (dispatch env ki reg b).result =
      if none ∈ launchedUnits ki reg then GatherResult.panicked else GatherResult.ok := rfl

theorem gather_some (env : Env) (ki : KubernetesInventory) (reg : List String) (c : Client)
    (hc : ki.client = some c) : Gather env ki reg = dispatch env ki reg false := by
  unfold Gather
  rw [hc]

theorem gather_none_err (env : Env) (ki : KubernetesInventory) (reg : List String) (e : GoError)
    (hc : ki.client = none) (he : (initClient env ki reg).outcome = Except.error e) :
    Gather env ki reg =
      { result := GatherResult.err e, run := [], accErrors := [], attempted := true,
        ki := { (initClient env ki reg).ki with client := none },
        reg := (initClient env ki reg).reg } := by
  unfold Gather
  rw [hc, he]

theorem gather_none_ok (env : Env) (ki : KubernetesInventory) (reg : List String) (c : Client)
    (hc : ki.client = none) (he : (initClient env ki reg).outcome = Except.ok c) :
    Gather env ki reg =
      dispatch env { (initClient env ki reg).ki with client := some c }
        (initClient env ki reg).reg true := by
  unfold Gather
  rw [hc, he]

theorem initClient_resourceInclude (env : Env) (ki : KubernetesInventory) (reg : List String) :
    (initClient env ki reg).ki.resourceInclude = ki.resourceInclude := by
  unfold initClient
  repeat' split
  all_goals rfl

theorem initClient_resourceExclude (env : Env) (ki : KubernetesInventory) (reg : List String) :
    (initClient env ki reg).ki.resourceExclude = ki.resourceExclude := by
  unfold initClient
  repeat' split
  all_goals rfl

theorem initClient_reg (env : Env) (ki : KubernetesInventory) (reg : List String) :
    (initClient env ki reg).reg =
      if ki.resourceInclude = [] then applyExclusions ki.resourceExclude reg else reg := by
  unfold initClient
  repeat' split
  all_goals rfl

theorem filterMap_id_map_some (l : List String) : (l.map some).filterMap id = l := by
  induction l with
  | nil => rfl
  | cons a t ih => simp [ih]

theorem none_not_mem_map_some (l : List String) : (none : Option String) ∉ l.map some := by
  simp [List.mem_map]

theorem lookupCollector_eq_none (reg : List String) (n : String) :
    lookupCollector reg n = none ↔ n ∉ reg := by
  unfold lookupCollector
  split <;> simp_all

theorem map_lookup_filterMap (reg l : List String) :
    (l.map (lookupCollector reg)).filterMap id = l.filter (fun n => decide (n ∈ reg)) := by
  induction l with
  | nil => rfl
  | cons a t ih =>
    by_cases h : a ∈ reg <;> simp [lookupCollector, h, List.filter_cons, ih]

theorem none_mem_map_lookup (reg l : List String) :
    (none ∈ l.map (lookupCollector reg)) ↔ ∃ n ∈ l, n ∉ reg := by
  simp [List.mem_map, lookupCollector_eq_none]

theorem launchedUnits_empty_include (ki : KubernetesInventory) (reg : List String)
    (h : ki.resourceInclude = []) : launchedUnits ki reg = reg.map some := by
  unfold launchedUnits
  rw [if_pos h]

theorem launchedUnits_nonempty_include (ki : KubernetesInventory) (reg : List String)
    (h : ki.resourceInclude ≠ []) :
    launchedUnits ki reg = ki.resourceInclude.map (lookupCollector reg) := by
  unfold launchedUnits
  rw [if_neg h]

theorem applyExclusions_nil (reg : List String) : applyExclusions [] reg = reg := rfl

/-! ### Concrete inputs -/

/-- An environment where every external collaborator behaves: no bearer-token
file is configured to be read, client construction succeeds, and no collector
fails internally. -/
def envOk : Env :=
  { fs := fun _ => none, newClientErr := none, collectorFails := fun _ => false }

/-- A concrete already-constructed client handle. -/
def client0 : Client :=
  { url := "https://127.0.0.1", ns := "default", bearerTokenString := "", timeout := 5 }

/-- A configuration with a cached client, a non-empty include list (one of
whose names, "secrets", is absent from the registry) and a non-empty exclude
list. -/
def kiInclude : KubernetesInventory :=
  { resourceInclude := ["pods", "deployments"], resourceExclude := ["nodes"],
    client := some client0 }

/-- A configuration with a cached client whose include list names only
"secrets", a resource kind absent from the registry. -/
def kiBadInclude : KubernetesInventory :=
  { resourceInclude := ["secrets"], client := some client0 }

/-! ### Claim theorems -/

/-- Claim C2: for every configuration with a non-empty include list, the set
of collectors run by one poll is exactly the include list intersected with the
registry, and the exclude list has no effect on which collectors run (the
same run set results under any exclude list). -/
theorem gather_include_selects_exactly (env : Env) (ki : KubernetesInventory)
    (reg : List String) (c : Client) (ex : List String)
    (hc : ki.client = some c) (hinc : ki.resourceInclude ≠ []) :
    (Gather env ki reg).run = ki.resourceInclude.filter (fun n => decide (n ∈ reg)) ∧
    (Gather env { ki with resourceExclude := ex } reg).run =
      ki.resourceInclude.filter (fun n => decide (n ∈ reg)) := by
  have hrun : ∀ ki' : KubernetesInventory, ki'.client = some c →
      ki'.resourceInclude = ki.resourceInclude →
      (Gather env ki' reg).run = ki.resourceInclude.filter (fun n => decide (n ∈ reg)) := by
    intro ki' hc' hinc'
    rw [gather_some env ki' reg c hc', dispatch_run,
      launchedUnits_nonempty_include ki' reg (by rw [hinc']; exact hinc), hinc',
      map_lookup_filterMap]
  exact ⟨hrun ki hc rfl, hrun { ki with resourceExclude := ex } hc rfl⟩

/-- Witness for C2 at a concrete input: include = [pods, deployments],
exclude = [nodes], full default registry. -/
theorem gather_include_selects_exactly_witness :
    kiInclude.client = some client0 ∧ kiInclude.resourceInclude ≠ [] ∧
      ((Gather envOk kiInclude availableCollectors).run =
          kiInclude.resourceInclude.filter (fun n => decide (n ∈ availableCollectors)) ∧
        (Gather envOk { kiInclude with resourceExclude := [] } availableCollectors).run =
          kiInclude.resourceInclude.filter (fun n => decide (n ∈ availableCollectors))) :=
  ⟨rfl, by decide,
    gather_include_selects_exactly envOk kiInclude availableCollectors client0 [] rfl
      (by decide)⟩

/-- Claim C3, counterexample: a poll whose include list names "secrets" — a
name absent from the registry — crashes: the registry lookup yields Go's nil
function value and invoking it panics, so the poll does not proceed normally. -/
theorem gather_missing_include_crashes_cex :
    (Gather envOk kiBadInclude availableCollectors).result = GatherResult.panicked := by
  decide

/-- Claim C3 (amended): for every configuration whose include list contains a
name absent from the registry, the lookup miss yields an absent (nil) routine,
and its invocation panics: the poll crashes rather than proceeding normally. -/
theorem gather_missing_include_panics (env : Env) (ki : KubernetesInventory)
    (reg : List String) (c : Client) (n : String)
    (hc : ki.client = some c) (hmem : n ∈ ki.resourceInclude) (habs : n ∉ reg) :
    (Gather env ki reg).result = GatherResult.panicked := by
  rw [gather_some env ki reg c hc, dispatch_result]
  have hne : ki.resourceInclude ≠ [] := by
    intro h
    rw [h] at hmem
    exact absurd hmem (List.not_mem_nil n)
  have hnone : none ∈ launchedUnits ki reg := by
    rw [launchedUnits_nonempty_include ki reg hne]
    exact (none_mem_map_lookup reg ki.resourceInclude).mpr ⟨n, hmem, habs⟩
  rw [if_pos hnone]

/-- Witness for the amended C3 at a concrete input: include = [secrets]. -/
theorem gather_missing_include_panics_witness :
    kiBadInclude.client = some client0 ∧ "secrets" ∈ kiBadInclude.resourceInclude ∧
      "secrets" ∉ availableCollectors ∧
      (Gather envOk kiBadInclude availableCollectors).result = GatherResult.panicked :=
  ⟨rfl, by decide, by decide,
    gather_missing_include_panics envOk kiBadInclude availableCollectors client0 "secrets" rfl
      (by decide) (by decide)⟩

/-- A configuration with no cached client, empty include and exclude lists,
and no bearer-token file. -/
def kiEmpty : KubernetesInventory := { url := "https://127.0.0.1" }

/-- Claim C4: for every configuration with empty include and exclude lists,
one poll (that obtains a client: either a cached one or a freshly constructed
one) runs every collector registered in the registry exactly once. -/
theorem gather_empty_config_runs_all (env : Env) (ki : KubernetesInventory)
    (reg : List String) (c : Client)
    (hinc : ki.resourceInclude = []) (hexc : ki.resourceExclude = [])
    (hnd : reg.Nodup)
    (hcl : ki.client = some c ∨
      (ki.client = none ∧ (initClient env ki reg).outcome = Except.ok c)) :
    (Gather env ki reg).run = reg ∧
      ∀ n ∈ reg, (Gather env ki reg).run.count n = 1 := by
  have hrun : (Gather env ki reg).run = reg := by
    rcases hcl with hc | ⟨hc, he⟩
    · rw [gather_some env ki reg c hc, dispatch_run,
        launchedUnits_empty_include ki reg hinc, filterMap_id_map_some]
    · rw [gather_none_ok env ki reg c hc he, dispatch_run]
      have hinc' : ({ (initClient env ki reg).ki with client := some c } :
          KubernetesInventory).resourceInclude = [] := by
        rw [initClient_resourceInclude env ki reg]
        exact hinc
      have hreg : (initClient env ki reg).reg = reg := by
        rw [initClient_reg env ki reg, if_pos hinc, hexc, applyExclusions_nil]
      rw [launchedUnits_empty_include _ _ hinc', hreg, filterMap_id_map_some]
  refine ⟨hrun, fun n hn => ?_⟩
  rw [hrun]
  exact List.count_eq_one_of_mem hnd hn

/-- Witness for C4 at a concrete input: a fresh configuration with empty
include and exclude lists over the full default registry. -/
theorem gather_empty_config_runs_all_witness :
    kiEmpty.resourceInclude = [] ∧ kiEmpty.resourceExclude = [] ∧
      availableCollectors.Nodup ∧
      (kiEmpty.client = none ∧
        (initClient envOk kiEmpty availableCollectors).outcome = Except.ok client0) ∧
      ((Gather envOk kiEmpty availableCollectors).run = availableCollectors ∧
        ∀ n ∈ availableCollectors,
          (Gather envOk kiEmpty availableCollectors).run.count n = 1) :=
  ⟨rfl, rfl, by decide, ⟨rfl, rfl⟩,
    gather_empty_config_runs_all envOk kiEmpty availableCollectors client0 rfl rfl
      (by decide) (Or.inr ⟨rfl, rfl⟩)⟩

theorem gather_attempted_of_none (env : Env) (ki : KubernetesInventory) (reg : List String)
    (hc : ki.client = none) : (Gather env ki reg).attempted = true := by
  cases ho : (initClient env ki reg).outcome with
  | error e => rw [gather_none_err env ki reg e hc ho]
  | ok c => rw [gather_none_ok env ki reg c hc ho, dispatch_attempted]

/-- A configuration with a bearer-token file path (which `envOk`'s file system
does not contain) and no cached client. -/
def kiBadToken : KubernetesInventory :=
  { url := "https://127.0.0.1", bearerToken := "/run/secrets/token" }

/-- Claim C5: whenever client construction fails during a poll, that poll
returns the construction error, runs no collectors, retains no client handle,
and the next poll (under any environment) re-attempts construction. -/
theorem gather_construction_failure_isolated (env envNext : Env)
    (ki : KubernetesInventory) (reg : List String) (e : GoError)
    (hc : ki.client = none) (he : (initClient env ki reg).outcome = Except.error e) :
    (Gather env ki reg).result = GatherResult.err e ∧
      (Gather env ki reg).run = [] ∧
      (Gather env ki reg).ki.client = none ∧
      (Gather envNext (Gather env ki reg).ki (Gather env ki reg).reg).attempted = true := by
  rw [gather_none_err env ki reg e hc he]
  exact ⟨rfl, rfl, rfl, gather_attempted_of_none envNext _ _ rfl⟩

/-- Witness for C5 at a concrete input: a missing bearer-token file makes the
first poll fail; the second poll attempts construction again. -/
theorem gather_construction_failure_isolated_witness :
    kiBadToken.client = none ∧
      (initClient envOk kiBadToken availableCollectors).outcome =
        Except.error (GoError.fileReadError "/run/secrets/token") ∧
      ((Gather envOk kiBadToken availableCollectors).result =
          GatherResult.err (GoError.fileReadError "/run/secrets/token") ∧
        (Gather envOk kiBadToken availableCollectors).run = [] ∧
        (Gather envOk kiBadToken availableCollectors).ki.client = none ∧
        (Gather envOk (Gather envOk kiBadToken availableCollectors).ki
            (Gather envOk kiBadToken availableCollectors).reg).attempted = true) :=
  ⟨rfl, rfl,
    gather_construction_failure_isolated envOk envOk kiBadToken availableCollectors
      (GoError.fileReadError "/run/secrets/token") rfl rfl⟩

theorem none_not_mem_launchedUnits (ki : KubernetesInventory) (reg : List String)
    (hfin : ∀ n ∈ ki.resourceInclude, n ∈ reg) :
    none ∉ launchedUnits ki reg := by
  by_cases h : ki.resourceInclude = []
  · rw [launchedUnits_empty_include ki reg h]
    exact none_not_mem_map_some reg
  · rw [launchedUnits_nonempty_include ki reg h]
    intro hmem
    obtain ⟨n, hn, habs⟩ := (none_mem_map_lookup reg _).mp hmem
    exact habs (hfin n hn)

/-- Claim C6: for every poll that has or successfully constructs a client (it
returns no construction error) and whose launched units all finish (no include
entry misses the registry), the poll returns success — the environment, and
with it every collector's internal failure behavior, is arbitrary. -/
theorem gather_success_despite_unit_failures (env : Env) (ki : KubernetesInventory)
    (reg : List String)
    (herr : ∀ e, (Gather env ki reg).result ≠ GatherResult.err e)
    (hfin : ∀ n ∈ ki.resourceInclude, n ∈ reg) :
    (Gather env ki reg).result = GatherResult.ok := by
  cases hcl : ki.client with
  | some c =>
    rw [gather_some env ki reg c hcl, dispatch_result,
      if_neg (none_not_mem_launchedUnits ki reg hfin)]
  | none =>
    cases ho : (initClient env ki reg).outcome with
    | error e =>
      exfalso
      apply herr e
      rw [gather_none_err env ki reg e hcl ho]
    | ok c =>
      rw [gather_none_ok env ki reg c hcl ho, dispatch_result]
      apply if_neg
      apply none_not_mem_launchedUnits
      intro n hn
      have h0 : n ∈ (initClient env ki reg).ki.resourceInclude := hn
      rw [initClient_resourceInclude env ki reg] at h0
      have hne : ki.resourceInclude ≠ [] := by
        intro hnil
        rw [hnil] at h0
        exact absurd h0 (List.not_mem_nil n)
      rw [initClient_reg env ki reg, if_neg hne]
      exact hfin n h0

/-- An environment in which every collector fails internally (and client
construction still succeeds). -/
def envAllFail : Env :=
  { fs := fun _ => none, newClientErr := none, collectorFails := fun _ => true }

/-- Witness for C6 at a concrete input: every collector fails internally, yet
the poll returns success. -/
theorem gather_success_despite_unit_failures_witness :
    (∀ e, (Gather envAllFail kiEmpty availableCollectors).result ≠ GatherResult.err e) ∧
      (∀ n ∈ kiEmpty.resourceInclude, n ∈ availableCollectors) ∧
      (Gather envAllFail kiEmpty availableCollectors).result = GatherResult.ok := by
  have h1 : ∀ e, (Gather envAllFail kiEmpty availableCollectors).result ≠ GatherResult.err e := by
    intro e h
    have h0 : (Gather envAllFail kiEmpty availableCollectors).result = GatherResult.ok := by
      decide
    rw [h0] at h
    exact GatherResult.noConfusion h
  have h2 : ∀ n ∈ kiEmpty.resourceInclude, n ∈ availableCollectors :=
    fun n hn => absurd hn (List.not_mem_nil n)
  exact ⟨h1, h2, gather_success_despite_unit_failures envAllFail kiEmpty availableCollectors h1 h2⟩

theorem pollSeq_cons (e : Env) (es : List Env) (ki : KubernetesInventory)
    (reg : List String) :
    pollSeq (e :: es) ki reg =
      ((pollSeq es (Gather e ki reg).ki (Gather e ki reg).reg).1,
       (pollSeq es (Gather e ki reg).ki (Gather e ki reg).reg).2.1,
       (if (Gather e ki reg).attempted then 1 else 0) +
         (pollSeq es (Gather e ki reg).ki (Gather e ki reg).reg).2.2) := rfl

theorem pollSeq_cached (envs : List Env) (ki : KubernetesInventory)
    (reg : List String) (c : Client) (hc : ki.client = some c) :
    pollSeq envs ki reg = (ki, reg, 0) := by
  induction envs with
  | nil => rfl
  | cons e es ih =>
    rw [pollSeq_cons, gather_some e ki reg c hc, dispatch_ki, dispatch_reg,
      dispatch_attempted, ih]
    rfl

/-- Claim C7: across a sequence of polls whose first client construction
succeeds, construction is attempted exactly once — in the first poll — and
every later poll reuses the cached handle unchanged. -/
theorem construction_attempted_once (e1 : Env) (es : List Env)
    (ki : KubernetesInventory) (reg : List String) (c : Client)
    (hc : ki.client = none)
    (h1 : (initClient e1 ki reg).outcome = Except.ok c) :
    (pollSeq (e1 :: es) ki reg).2.2 = 1 ∧
      (pollSeq (e1 :: es) ki reg).1.client = some c := by
  rw [pollSeq_cons, gather_none_ok e1 ki reg c hc h1, dispatch_ki, dispatch_reg,
    dispatch_attempted, pollSeq_cached es _ _ c rfl]
  exact ⟨rfl, rfl⟩

/-- Witness for C7 at a concrete input: three polls, construction succeeding
in the first; exactly one construction attempt happens. -/
theorem construction_attempted_once_witness :
    kiEmpty.client = none ∧
      (initClient envOk kiEmpty availableCollectors).outcome = Except.ok client0 ∧
      ((pollSeq (envOk :: [envOk, envOk]) kiEmpty availableCollectors).2.2 = 1 ∧
        (pollSeq (envOk :: [envOk, envOk]) kiEmpty availableCollectors).1.client =
          some client0) :=
  ⟨rfl, rfl,
    construction_attempted_once envOk [envOk, envOk] kiEmpty availableCollectors client0
      rfl rfl⟩

/-- An environment whose file system holds a bearer-token file with
surrounding whitespace in its content. -/
def envToken : Env :=
  { fs := fun p => if p = "/run/secrets/token" then some "  tok123\n" else none,
    newClientErr := none, collectorFails := fun _ => false }

/-- Claim C8: whenever a bearer-token file path is configured, a missing file
makes client construction fail with an error naming the offending path (an
error return, not a panic), and a readable file's content is trimmed of
leading and trailing whitespace before being used as the token. -/
theorem bearer_token_file_handling (ki : KubernetesInventory) (reg : List String)
    (hbt : ki.bearerToken ≠ "") :
    (∀ env : Env, env.fs ki.bearerToken = none →
        (initClient env ki reg).outcome =
          Except.error (GoError.fileReadError ki.bearerToken)) ∧
    (∀ (env : Env) (content : String), env.fs ki.bearerToken = some content →
        env.newClientErr = none →
        (initClient env ki reg).outcome =
          Except.ok { url := ki.url, ns := ki.ns, bearerTokenString := trimSpace content,
                      timeout := ki.responseTimeout }) := by
  constructor
  · intro env hfs
    unfold initClient
    rw [if_pos hbt, hfs]
  · intro env content hfs hnc
    unfold initClient
    rw [if_pos hbt, hfs]
    unfold newClient
    rw [hnc]

/-- Witness for C8 at concrete inputs: a missing file fails construction with
the path in the error; a present file's content "  tok123\n" is used as
"tok123". -/
theorem bearer_token_file_handling_witness :
    kiBadToken.bearerToken ≠ "" ∧
      (initClient envOk kiBadToken availableCollectors).outcome =
        Except.error (GoError.fileReadError "/run/secrets/token") ∧
      (initClient envToken kiBadToken availableCollectors).outcome =
        Except.ok { url := "https://127.0.0.1", ns := "default",
                    bearerTokenString := "tok123", timeout := 5 } := by
  have h := bearer_token_file_handling kiBadToken availableCollectors (by decide)
  have htrim : trimSpace "  tok123\n" = "tok123" := by decide
  have h2 := h.2 envToken "  tok123\n" rfl rfl
  rw [htrim] at h2
  exact ⟨by decide, h.1 envOk rfl, h2⟩

/-- A configuration with both a bearer-token file path and a literal
bearer-token string. -/
def kiBothTokens : KubernetesInventory :=
  { url := "https://127.0.0.1", bearerToken := "/run/secrets/token",
    bearerTokenString := "literal-token" }

/-- Claim C9: when both a bearer-token file path and a literal bearer-token
string are configured, the token read from the file takes priority: the
client is constructed with the trimmed file content, which also overwrites
the struct's literal token field. -/
theorem bearer_token_file_priority (env : Env) (ki : KubernetesInventory)
    (reg : List String) (content : String)
    (hbt : ki.bearerToken ≠ "") (_hlit : ki.bearerTokenString ≠ "")
    (hfs : env.fs ki.bearerToken = some content) (hnc : env.newClientErr = none) :
    (initClient env ki reg).outcome =
      Except.ok { url := ki.url, ns := ki.ns, bearerTokenString := trimSpace content,
                  timeout := ki.responseTimeout } ∧
    (initClient env ki reg).ki.bearerTokenString = trimSpace content := by
  constructor
  · unfold initClient
    rw [if_pos hbt, hfs]
    unfold newClient
    rw [hnc]
  · unfold initClient
    rw [if_pos hbt, hfs]

/-- Witness for C9 at a concrete input: literal token "literal-token" is
overridden by the file content, trimmed to "tok123". -/
theorem bearer_token_file_priority_witness :
    kiBothTokens.bearerToken ≠ "" ∧ kiBothTokens.bearerTokenString ≠ "" ∧
      envToken.fs kiBothTokens.bearerToken = some "  tok123\n" ∧
      envToken.newClientErr = none ∧
      ((initClient envToken kiBothTokens availableCollectors).outcome =
          Except.ok { url := "https://127.0.0.1", ns := "default",
                      bearerTokenString := "tok123", timeout := 5 } ∧
        (initClient envToken kiBothTokens availableCollectors).ki.bearerTokenString =
          "tok123") := by
  have h := bearer_token_file_priority envToken kiBothTokens availableCollectors
    "  tok123\n" (by decide) (by decide) rfl rfl
  have htrim : trimSpace "  tok123\n" = "tok123" := by decide
  rw [htrim] at h
  exact ⟨by decide, by decide, rfl, rfl, h⟩

/-- Claim C10: client construction is not atomic with respect to the shared
registry: with an empty include list, `initClient` deletes every excluded
entry from the shared registry before attempting to read the token file, so
when construction then fails the poll returns the error with a nil client
handle while the registry deletions persist. -/
theorem init_failure_registry_mutation_persists (env : Env) (ki : KubernetesInventory)
    (reg : List String)
    (hc : ki.client = none) (hinc : ki.resourceInclude = [])
    (hbt : ki.bearerToken ≠ "") (hfs : env.fs ki.bearerToken = none) :
    (Gather env ki reg).result = GatherResult.err (GoError.fileReadError ki.bearerToken) ∧
      (Gather env ki reg).ki.client = none ∧
      (Gather env ki reg).reg = applyExclusions ki.resourceExclude reg := by
  have he : (initClient env ki reg).outcome =
      Except.error (GoError.fileReadError ki.bearerToken) := by
    unfold initClient
    rw [if_pos hbt, hfs]
  rw [gather_none_err env ki reg _ hc he]
  refine ⟨rfl, rfl, ?_⟩
  show (initClient env ki reg).reg = applyExclusions ki.resourceExclude reg
  rw [initClient_reg env ki reg, if_pos hinc]

/-- A configuration with an empty include list, a non-empty exclude list and
a bearer-token file path that cannot be read. -/
def kiExcludeBadToken : KubernetesInventory :=
  { url := "https://127.0.0.1", bearerToken := "/run/secrets/token",
    resourceExclude := ["nodes"] }

/-- Witness for C10 at a concrete input: construction fails on the missing
token file, yet "nodes" stays deleted from the shared registry. -/
theorem init_failure_registry_mutation_persists_witness :
    kiExcludeBadToken.client = none ∧ kiExcludeBadToken.resourceInclude = [] ∧
      kiExcludeBadToken.bearerToken ≠ "" ∧
      envOk.fs kiExcludeBadToken.bearerToken = none ∧
      ((Gather envOk kiExcludeBadToken availableCollectors).result =
          GatherResult.err (GoError.fileReadError "/run/secrets/token") ∧
        (Gather envOk kiExcludeBadToken availableCollectors).ki.client = none ∧
        (Gather envOk kiExcludeBadToken availableCollectors).reg =
          ["daemonsets", "deployments", "persistentvolumes",
           "persistentvolumeclaims", "pods", "statefulsets"]) := by
  have h := init_failure_registry_mutation_persists envOk kiExcludeBadToken
    availableCollectors rfl rfl (by decide) rfl
  refine ⟨rfl, rfl, by decide, rfl, h.1, h.2.1, ?_⟩
  rw [h.2.2]
  decide

/-- A first plugin configuration: empty include list, exclude = [nodes]. -/
def kiPoll1 : KubernetesInventory :=
  { url := "https://127.0.0.1", resourceExclude := ["nodes"] }

/-- A second plugin configuration: empty include and exclude lists. -/
def kiPoll2 : KubernetesInventory := { url := "https://127.0.0.1" }

/-- Claim C1, evaluated at the failing input (poll 1 excludes [nodes]; poll 2,
against the registry poll 1 left behind, excludes nothing): resolving poll 1's
exclusions permanently deletes "nodes" from the shared registry, so poll 2
does not run "nodes" even though a poll with the same configuration against a
fresh registry would — the second poll's run set does not depend only on its
own configuration, contradicting the claim (and agreeing with the spec's own
design notes, which call this reference behavior a latent bug). -/
theorem registry_mutation_leaks_across_polls :
    (Gather envOk kiPoll1 availableCollectors).reg =
      ["daemonsets", "deployments", "persistentvolumes",
       "persistentvolumeclaims", "pods", "statefulsets"] ∧
      "nodes" ∉ (Gather envOk kiPoll2 (Gather envOk kiPoll1 availableCollectors).reg).run ∧
      "nodes" ∈ (Gather envOk kiPoll2 availableCollectors).run := by
  decide
